import Mathlib

/-!
# Verification of the beam-deflection calculation engine

Shallow embedding of the numeric core of `beam_deflection.py`
(class `BeamDeflectionCalculator`): section properties, input validation,
weight, and the piecewise superposition deflection solver.

Modelling conventions:
* Python floats are modelled as rationals (`ℚ`); every formula in the source
  is a field expression, so the algebraic identities proved here are exactly
  the identities of the source formulas.
* `np.pi` is a numeric constant; it is modelled as an explicit parameter
  `pi : ℚ` so that every statement quantifies over it (the formulas never
  depend on its value).
* The GUI state (radio buttons, text fields) is modelled by a tagged
  cross-section type and already-parsed numeric arguments; text-parse
  failures (`ValueError`) make the Python functions bail out before any of
  the logic modelled here runs.
-/

namespace BeamDeflection

/-- The six cross-section families selected by the radio buttons
(`square_radio`, `circular_radio`, `i_beam_radio`, `rect_radio`,
`tube_radio`, `square_tube_radio`), with the dimensions read from the
corresponding input fields. -/
inductive CrossSection where
  | square (side : ℚ)
  | circle (diameter : ℚ)
  | ibeam (height flangeWidth webThickness flangeThickness : ℚ)
  | rectangle (height width : ℚ)
  | circularTube (outerDiameter wallThickness : ℚ)
  | squareTube (outerDimension wallThickness : ℚ)
deriving DecidableEq, Repr

/-- The support condition radio buttons: `single_support_radio` (cantilever,
fixed at position 0) or `both_ends_radio` (simply supported at 0 and L). -/
inductive Support where
  | cantilever
  | simplySupported
deriving DecidableEq, Repr

/-- `calculate_section_properties` (beam_deflection.py lines 406-451):
returns the pair (area, moment of inertia) for the selected section.
`pi` stands for the constant `np.pi`. -/
def calculate_section_properties (pi : ℚ) : CrossSection → ℚ × ℚ
  | .square d => (d ^ 2, d ^ 4 / 12)
  | .circle d =>
      let r := d / 2
      (pi * r ^ 2, pi * r ^ 4 / 64)
  | .ibeam h b tw tf =>
      let A_web := tw * (h - 2 * tf)
      let A_flanges := 2 * b * tf
      let I_web := tw * (h - 2 * tf) ^ 3 / 12
      let I_flanges := 2 * (b * tf ^ 3 / 12 + b * tf * ((h - tf) / 2) ^ 2)
      (A_web + A_flanges, I_web + I_flanges)
  | .rectangle h b => (b * h, b * h ^ 3 / 12)
  | .circularTube od t =>
      let di := od - 2 * t
      let ro := od / 2
      let ri := di / 2
      (pi * (ro ^ 2 - ri ^ 2), pi * (ro ^ 4 - ri ^ 4) / 4)
  | .squareTube a t =>
      let ai := a - 2 * t
      (a ^ 2 - ai ^ 2, (a ^ 4 - ai ^ 4) / 12)

/-- The §4.1 table of the spec, transcribed verbatim: Square(d) → (d², d⁴/12);
Circle(d) → (π(d/2)², π(d/2)⁴/64); Rectangle(h,b) → (b·h, b·h³/12);
IBeam(h,b,tw,tf) → (tw·(h−2tf) + 2·b·tf, tw·(h−2tf)³/12 + 2·(b·tf³/12 +
b·tf·((h−tf)/2)²)); CircularTube(do,t) with ro = do/2, ri = ro−t →
(π(ro²−ri²), π(ro⁴−ri⁴)/4); SquareTube(a,t) with ai = a−2t →
(a²−ai², (a⁴−ai⁴)/12). -/
def spec_section_table (pi : ℚ) : CrossSection → ℚ × ℚ
  | .square d => (d ^ 2, d ^ 4 / 12)
  | .circle d => (pi * (d / 2) ^ 2, pi * (d / 2) ^ 4 / 64)
  | .ibeam h b tw tf =>
      (tw * (h - 2 * tf) + 2 * b * tf,
       tw * (h - 2 * tf) ^ 3 / 12 + 2 * (b * tf ^ 3 / 12 + b * tf * ((h - tf) / 2) ^ 2))
  | .rectangle h b => (b * h, b * h ^ 3 / 12)
  | .circularTube od t =>
      let ro := od / 2
      let ri := ro - t
      (pi * (ro ^ 2 - ri ^ 2), pi * (ro ^ 4 - ri ^ 4) / 4)
  | .squareTube a t =>
      let ai := a - 2 * t
      (a ^ 2 - ai ^ 2, (a ^ 4 - ai ^ 4) / 12)

/-- The §3 structural-validity invariant of the spec: all dimensions
positive; for IBeam, webThickness ≤ flangeWidth and 2·flangeThickness <
height; for tubes, 2·wallThickness < outer dimension. -/
def StructValid : CrossSection → Prop
  | .square d => 0 < d
  | .circle d => 0 < d
  | .ibeam h b tw tf => 0 < h ∧ 0 < b ∧ 0 < tw ∧ 0 < tf ∧ tw ≤ b ∧ 2 * tf < h
  | .rectangle h b => 0 < h ∧ 0 < b
  | .circularTube od t => 0 < od ∧ 0 < t ∧ 2 * t < od
  | .squareTube a t => 0 < a ∧ 0 < t ∧ 2 * t < a

instance (cs : CrossSection) : Decidable (StructValid cs) := by
  cases cs <;> (unfold StructValid; infer_instance)

/-- C2: for every structurally valid cross-section, the code's
`calculate_section_properties` returns exactly the (area, inertia) pair of
the spec's §4.1 table (proved here for every cross-section and every value
of the constant π, which is stronger). -/
theorem calculate_section_properties_matches_spec_table (pi : ℚ) (cs : CrossSection) :
    calculate_section_properties pi cs = spec_section_table pi cs := by
  cases cs <;>
    first
      | rfl
      | (simp only [calculate_section_properties, spec_section_table, Prod.mk.injEq]
         exact ⟨by ring, by ring⟩)

/-- Cantilever contribution for `x ≤ a` (line 841-843):
`P·x²·(3a − x) / (6EI)`. -/
def cantilever_before_formula (P a x E I : ℚ) : ℚ :=
  P * x ^ 2 * (3 * a - x) / (6 * E * I)

/-- Cantilever contribution for `x > a` (line 845):
`P·a²·(3x − a) / (6EI)`. -/
def cantilever_after_formula (P a x E I : ℚ) : ℚ :=
  P * a ^ 2 * (3 * x - a) / (6 * E * I)

/-- Simply-supported contribution for `x < a` (lines 854-856), with
`b = L − a`: `P·b·x·(L² − b² − x²) / (6EI·L)`. -/
def simply_supported_before_formula (P a x L E I : ℚ) : ℚ :=
  P * (L - a) * x * (L ^ 2 - (L - a) ^ 2 - x ^ 2) / (6 * E * I * L)

/-- Simply-supported contribution for `x ≥ a` (lines 858-863):
`P·a·(L − x)·(2L·x − x² − a²) / (6EI·L)`. -/
def simply_supported_after_formula (P a x L E I : ℚ) : ℚ :=
  P * a * (L - x) * (2 * L * x - x ^ 2 - a ^ 2) / (6 * E * I * L)

/-- The contribution of one force `(P, a)` to the deflection at `x`, with the
branch selection of `calculate_deflection` (lines 836-863): cantilever
splits on `x ≤ a` / `x > a` via `mask_before`/`mask_after`; simply
supported splits on `x < a` / `x ≥ a`. -/
def deflection_contribution (s : Support) (P a x L E I : ℚ) : ℚ :=
  match s with
  | .cantilever =>
      if x ≤ a then cantilever_before_formula P a x E I
      else cantilever_after_formula P a x E I
  | .simplySupported =>
      if x < a then simply_supported_before_formula P a x L E I
      else simply_supported_after_formula P a x L E I

/-- `calculate_deflection` (lines 829-864) evaluated pointwise at `x`:
returns 0 when the force list is empty, otherwise starts from the zero
array and accumulates each force's contribution. -/
def calculate_deflection (s : Support) (forces : List (ℚ × ℚ)) (x L E I : ℚ) : ℚ :=
  if forces.isEmpty then 0
  else forces.foldl (fun y pa => y + deflection_contribution s pa.1 pa.2 x L E I) 0

/-- The single-load closed-form curve exactly as the spec's §4.2 words it,
tie-breaks included: Cantilever, `x ≤ a`: `P·x²·(3a − x)/(6EI)`, `x > a`:
`P·a²·(3x − a)/(6EI)`; SimplySupported with `b = L − a`, `x < a`:
`P·b·x·(L² − b² − x²)/(6EI·L)`, `x ≥ a`: `P·a·(L − x)·(2L·x − x² − a²)/(6EI·L)`. -/
def spec_single_load (s : Support) (P a x L E I : ℚ) : ℚ :=
  match s with
  | .cantilever =>
      if x ≤ a then P * x ^ 2 * (3 * a - x) / (6 * E * I)
      else P * a ^ 2 * (3 * x - a) / (6 * E * I)
  | .simplySupported =>
      let b := L - a
      if x < a then P * b * x * (L ^ 2 - b ^ 2 - x ^ 2) / (6 * E * I * L)
      else P * a * (L - x) * (2 * L * x - x ^ 2 - a ^ 2) / (6 * E * I * L)

lemma foldl_add_eq_sum (f : ℚ × ℚ → ℚ) (forces : List (ℚ × ℚ)) (init : ℚ) :
    forces.foldl (fun y pa => y + f pa) init = init + (forces.map f).sum := by
  induction forces generalizing init with
  | nil => simp
  | cons head tail ih =>
      simp only [List.foldl_cons, List.map_cons, List.sum_cons, ih]
      ring

lemma calculate_deflection_eq_sum (s : Support) (forces : List (ℚ × ℚ)) (x L E I : ℚ) :
    calculate_deflection s forces x L E I =
      (forces.map (fun pa => deflection_contribution s pa.1 pa.2 x L E I)).sum := by
  unfold calculate_deflection
  split
  · rename_i hempty
    rw [List.isEmpty_iff] at hempty
    subst hempty
    simp
  · rw [foldl_add_eq_sum, zero_add]

lemma deflection_contribution_eq_spec (s : Support) (P a x L E I : ℚ) :
    deflection_contribution s P a x L E I = spec_single_load s P a x L E I := by
  cases s <;> rfl

/-- C1: for every support condition, force list, and position, the code's
deflection is the sum over the loads of the spec's closed-form single-load
curve, with exactly the spec's tie-breaks at x = a (proved for all inputs,
which subsumes the claim's L > 0, E > 0, I > 0, 0 ≤ a ≤ L, x ∈ [0, L]). -/
theorem calculate_deflection_is_spec_superposition (s : Support)
    (forces : List (ℚ × ℚ)) (x L E I : ℚ) :
    calculate_deflection s forces x L E I =
      (forces.map (fun pa => spec_single_load s pa.1 pa.2 x L E I)).sum := by
  rw [calculate_deflection_eq_sum]
  simp only [deflection_contribution_eq_spec]

/-- C8: superposition linearity — the deflection of the two-load list
[L1, L2] is, at every point, the sum of the deflections of [L1] and of
[L2] alone (same span, support condition, E and I). -/
theorem calculate_deflection_superposition (s : Support) (l1 l2 : ℚ × ℚ)
    (x L E I : ℚ) :
    calculate_deflection s [l1, l2] x L E I =
      calculate_deflection s [l1] x L E I + calculate_deflection s [l2] x L E I := by
  simp [calculate_deflection_eq_sum]

/-- C9: continuity at the load point — evaluated at x = a, the cantilever
`x ≤ a` and `x > a` formulas agree, and the simply-supported `x < a` and
`x ≥ a` formulas agree, for every P, a, L, E, I. -/
theorem deflection_branches_agree_at_load_point (P a L E I : ℚ) :
    cantilever_before_formula P a a E I = cantilever_after_formula P a a E I ∧
      simply_supported_before_formula P a a L E I =
        simply_supported_after_formula P a a L E I := by
  constructor
  · unfold cantilever_before_formula cantilever_after_formula
    ring
  · unfold simply_supported_before_formula simply_supported_after_formula
    ring

/-- The cross-section part of `is_valid_input` (lines 627-655): the helper
returns False when a dimension is non-positive, when an IBeam has
`tw > b` or `2·tf > h` (strict comparisons in the source), or when a tube
has `2·t ≥ od` (resp. `2·t ≥ a`); otherwise this part passes. -/
def section_valid : CrossSection → Bool
  | .square d => if d ≤ 0 then false else true
  | .circle d => if d ≤ 0 then false else true
  | .ibeam h b tw tf =>
      if (h ≤ 0 ∨ b ≤ 0 ∨ tw ≤ 0 ∨ tf ≤ 0) ∨ tw > b ∨ 2 * tf > h then false else true
  | .rectangle h b => if h ≤ 0 ∨ b ≤ 0 then false else true
  | .circularTube od t => if od ≤ 0 ∨ t ≤ 0 ∨ 2 * t ≥ od then false else true
  | .squareTube a t => if a ≤ 0 ∨ t ≤ 0 ∨ 2 * t ≥ a then false else true

/-- `is_valid_input` (lines 627-660): validates the selected cross-section's
dimensions and then requires `length > 0`. It reads no force and no
material property. -/
def is_valid_input (cs : CrossSection) (length : ℚ) : Bool :=
  section_valid cs && decide (length > 0)

/-- What `is_valid_input` actually accepts, as a proposition: all dimensions
positive; for IBeam additionally `tw ≤ b` and `2·tf ≤ h` (the degenerate
equality `2·tf = h` is accepted); for tubes `2·t < od` strictly. -/
def SectionAccepted : CrossSection → Prop
  | .square d => 0 < d
  | .circle d => 0 < d
  | .ibeam h b tw tf => 0 < h ∧ 0 < b ∧ 0 < tw ∧ 0 < tf ∧ tw ≤ b ∧ 2 * tf ≤ h
  | .rectangle h b => 0 < h ∧ 0 < b
  | .circularTube od t => 0 < od ∧ 0 < t ∧ 2 * t < od
  | .squareTube a t => 0 < a ∧ 0 < t ∧ 2 * t < a

lemma ite_false_true_eq_true {c : Prop} [Decidable c] :
    (if c then false else true) = true ↔ ¬ c := by
  split <;> simp_all

lemma section_valid_iff (cs : CrossSection) :
    section_valid cs = true ↔ SectionAccepted cs := by
  cases cs <;>
    (simp only [section_valid, SectionAccepted]
     rw [ite_false_true_eq_true]
     push_neg
     tauto)

/-- `calculate_weight` models line 680:
`weight = density * A * L / 1e9` (mm³ converted to m³). -/
def calculate_weight (density A L : ℚ) : ℚ :=
  density * A * L / 1000000000

/-- `calculate` (lines 662-691), the numeric part: if `is_valid_input`
fails, nothing is computed (the labels show an error); otherwise the
section properties, the weight and the pointwise deflection function are
produced. Plotting and label updates are outside the model. -/
def calculate (pi : ℚ) (cs : CrossSection) (L E density : ℚ) (s : Support)
    (forces : List (ℚ × ℚ)) : Option (ℚ × (ℚ → ℚ)) :=
  if is_valid_input cs L then
    let AI := calculate_section_properties pi cs
    some (calculate_weight density AI.1 L, fun x => calculate_deflection s forces x L E AI.2)
  else none

/-- The section-property computation as guarded by `calculate`'s
`is_valid_input` check: `calculate_section_properties` itself (lines
406-451) computes unconditionally, and `calculate` (lines 664-667, 677)
refuses to invoke it when validation fails, so no value is produced for a
rejected cross-section. -/
def calculate_section_properties_checked (pi : ℚ) (cs : CrossSection) : Option (ℚ × ℚ) :=
  if section_valid cs then some (calculate_section_properties pi cs) else none

/-- `add_force` (lines 796-819) on already-parsed inputs: the force list is
unchanged when `magnitude == 0 or position < 0 or position > L`, otherwise
`(magnitude, position)` is appended. No exception is raised either way. -/
def add_force (magnitude position L : ℚ) (forces : List (ℚ × ℚ)) : List (ℚ × ℚ) :=
  if magnitude = 0 ∨ position < 0 ∨ position > L then forces
  else forces ++ [(magnitude, position)]

/-- C3 counterexample: a spec with span 10 and a single load at position 100
(far beyond the span) is accepted by `calculate` — validation never looks
at the loads, so the claim that such a spec fails with InvalidInput is
false on the code. -/
theorem solve_accepts_load_beyond_span :
    (calculate 3 (.square 40) 10 69000 2700 .cantilever [(1, 100)]).isSome = true ∧
      ¬ ((100 : ℚ) ≤ 10) := by
  constructor
  · decide
  · norm_num

/-- C3 amended: `calculate` computes a result exactly when the cross-section
passes `section_valid` and the span is positive; load positions, E and
density are never examined at solve time (load positions are bounds-checked
only when a force is added, and materials come from a fixed table). -/
theorem solve_accepts_iff (pi : ℚ) (cs : CrossSection) (L E density : ℚ)
    (s : Support) (forces : List (ℚ × ℚ)) :
    (calculate pi cs L E density s forces).isSome = true ↔
      SectionAccepted cs ∧ 0 < L := by
  unfold calculate is_valid_input
  split <;> rename_i hif
  · simp only [Option.isSome_some, true_iff]
    rw [Bool.and_eq_true, decide_eq_true_iff] at hif
    exact ⟨(section_valid_iff cs).mp hif.1, hif.2⟩
  · simp only [Option.isSome_none, Bool.false_eq_true, false_iff, not_and]
    intro hsec hL
    exact hif (by rw [Bool.and_eq_true, decide_eq_true_iff]
                  exact ⟨(section_valid_iff cs).mpr hsec, hL⟩)

/-- C4 counterexample: the IBeam with h = 2, b = 1, tw = 1, tf = 1 has
2·flangeThickness = height (the equality case the claim says must be
rejected), yet the guarded computation produces a value: the source checks
`2 * tf > h` strictly. -/
theorem section_check_accepts_equal_flanges :
    (calculate_section_properties_checked 3 (.ibeam 2 1 1 1)).isSome = true ∧
      2 * (1 : ℚ) = 2 := by
  constructor
  · unfold calculate_section_properties_checked
    rw [if_pos]
    · rfl
    · simp only [section_valid]
      norm_num
  · norm_num

/-- C4 amended: the guarded section-property computation fails (produces no
value) exactly for the cross-sections outside `SectionAccepted`: a
non-positive dimension, an IBeam with tw > b or 2·tf > h strictly (the
equality 2·tf = h is accepted), a circular tube with 2·t ≥ od, or a square
tube with 2·t ≥ a. -/
theorem section_check_fails_iff (pi : ℚ) (cs : CrossSection) :
    (calculate_section_properties_checked pi cs).isSome = false ↔
      ¬ SectionAccepted cs := by
  unfold calculate_section_properties_checked
  split <;> rename_i hif
  · simp only [Option.isSome_some, Bool.true_eq_false, false_iff, not_not]
    exact (section_valid_iff cs).mp hif
  · simp only [Option.isSome_none, true_iff]
    intro hsec
    exact hif ((section_valid_iff cs).mpr hsec)

/-- C10: the public add-force entry appends the parsed force `(m, p)` to
the list exactly when m ≠ 0 and 0 ≤ p ≤ L (L the current span length);
otherwise the list is returned unchanged and no error is raised. -/
theorem add_force_characterization (m p L : ℚ) (forces : List (ℚ × ℚ)) :
    add_force m p L forces =
      if m ≠ 0 ∧ 0 ≤ p ∧ p ≤ L then forces ++ [(m, p)] else forces := by
  unfold add_force
  split <;> rename_i h₁ <;> split <;> rename_i h₂ <;> try rfl
  · obtain ⟨hm, hp, hpL⟩ := h₂
    rcases h₁ with h | h | h
    · exact absurd h hm
    · exact absurd hp (not_le.mpr h)
    · exact absurd h (not_lt.mpr hpL)
  · push_neg at h₁
    exact absurd h₁ h₂

/-- Lines 683-685 of `calculate`: the maximum of the absolute deflection
over the sample grid (`np.max(np.abs(y))`), modelled as a fold over an
arbitrary sample list with the neutral start 0 (every |y| is ≥ 0, so on a
non-empty grid this equals the numpy maximum). -/
def max_abs_deflection (f : ℚ → ℚ) (samples : List ℚ) : ℚ :=
  samples.foldl (fun m t => max m |f t|) 0

lemma max_abs_deflection_zero (samples : List ℚ) :
    max_abs_deflection (fun _ => (0 : ℚ)) samples = 0 := by
  have h : ∀ l : List ℚ, l.foldl (fun m t => max m |(fun _ => (0 : ℚ)) t|) 0 = 0 := by
    intro l
    induction l with
    | nil => rfl
    | cons a t ih => simpa using ih
  exact h samples

/-- C5 counterexample: scenario 1 (Square side 40, span 1000, Aluminum
density 2700) gives computed weight 4.32 kg, which is nowhere near the
claimed 1.728×10⁻¹ kg (it differs by more than 4 kg). -/
theorem scenario1_weight_differs_from_claim :
    calculate_weight 2700 (calculate_section_properties 3 (.square 40)).1 1000 = 432 / 100 ∧
      (432 / 100 : ℚ) - 1728 / 10000 > 4 := by
  constructor
  · norm_num [calculate_weight, calculate_section_properties]
  · norm_num

/-- C5 amended: weight is density × area × spanLength / 10⁹ (mm³ → m³ for a
density in kg/m³), and scenario 1 yields area = 1600 mm²,
I = 640000/3 ≈ 213333.33 mm⁴ and weight 4.32 kg (not 1.728×10⁻¹ kg). -/
theorem scenario1_weight_area_inertia :
    (calculate_section_properties 3 (.square 40)).1 = 1600 ∧
      (calculate_section_properties 3 (.square 40)).2 = 640000 / 3 ∧
      calculate_weight 2700 1600 1000 = 432 / 100 ∧
      (∀ density A L : ℚ, calculate_weight density A L = density * A * L / 1000000000) :=
  ⟨by norm_num [calculate_section_properties],
   by norm_num [calculate_section_properties],
   by norm_num [calculate_weight],
   fun _ _ _ => rfl⟩

/-- C6: with an empty load list the deflection is identically zero, the
maximum absolute deflection over any sample grid is 0, and `calculate`
produces exactly the same weight as it does with any load list. -/
theorem empty_loads_zero_deflection (s : Support) (x L E I pi density : ℚ)
    (cs : CrossSection) (samples : List ℚ) (forces : List (ℚ × ℚ)) :
    calculate_deflection s [] x L E I = 0 ∧
      max_abs_deflection (fun t => calculate_deflection s [] t L E I) samples = 0 ∧
      (calculate pi cs L E density s []).map Prod.fst =
        (calculate pi cs L E density s forces).map Prod.fst := by
  refine ⟨rfl, ?_, ?_⟩
  · exact max_abs_deflection_zero samples
  · by_cases hv : is_valid_input cs L = true
    · simp [calculate, hv]
    · simp [calculate, hv]

lemma cantilever_contribution_zero_at_fixed_end (P a L E I : ℚ) (h0 : 0 ≤ a) :
    deflection_contribution .cantilever P a 0 L E I = 0 := by
  unfold deflection_contribution
  rw [if_pos h0]
  unfold cantilever_before_formula
  norm_num

lemma simply_supported_contribution_zero_at_left (P a L E I : ℚ) (h0 : 0 ≤ a) :
    deflection_contribution .simplySupported P a 0 L E I = 0 := by
  unfold deflection_contribution
  by_cases ha : (0 : ℚ) < a
  · rw [if_pos ha]
    unfold simply_supported_before_formula
    norm_num
  · rw [if_neg ha]
    have haz : a = 0 := le_antisymm (not_lt.mp ha) h0
    subst haz
    unfold simply_supported_after_formula
    norm_num

lemma simply_supported_contribution_zero_at_right (P a L E I : ℚ) (hL : a ≤ L) :
    deflection_contribution .simplySupported P a L L E I = 0 := by
  unfold deflection_contribution
  rw [if_neg (not_lt.mpr hL)]
  unfold simply_supported_after_formula
  simp [sub_self]

/-- C7: for every load list whose positions lie in [0, L], the deflection is
exactly 0 at the cantilever's fixed end x = 0 and at both simply-supported
supports x = 0 and x = L (for every E, I, L). -/
theorem deflection_zero_at_supports (forces : List (ℚ × ℚ)) (L E I : ℚ)
    (h : ∀ pa ∈ forces, 0 ≤ pa.2 ∧ pa.2 ≤ L) :
    calculate_deflection .cantilever forces 0 L E I = 0 ∧
      calculate_deflection .simplySupported forces 0 L E I = 0 ∧
      calculate_deflection .simplySupported forces L L E I = 0 := by
  refine ⟨?_, ?_, ?_⟩ <;>
    (rw [calculate_deflection_eq_sum]
     apply List.sum_eq_zero
     intro y hy
     simp only [List.mem_map] at hy
     obtain ⟨pa, hmem, rfl⟩ := hy
     obtain ⟨h0, hL⟩ := h pa hmem)
  · exact cantilever_contribution_zero_at_fixed_end pa.1 pa.2 L E I h0
  · exact simply_supported_contribution_zero_at_left pa.1 pa.2 L E I h0
  · exact simply_supported_contribution_zero_at_right pa.1 pa.2 L E I hL

/-- Witness for C7 at scenario 1's load: a −3000 N force at position
1000 mm on a 1000 mm span. -/
theorem deflection_zero_at_supports_witness :
    (∀ pa ∈ [((-3000 : ℚ), (1000 : ℚ))], 0 ≤ pa.2 ∧ pa.2 ≤ 1000) ∧
      (calculate_deflection .cantilever [(-3000, 1000)] 0 1000 69000 (640000 / 3) = 0 ∧
        calculate_deflection .simplySupported [(-3000, 1000)] 0 1000 69000 (640000 / 3) = 0 ∧
        calculate_deflection .simplySupported [(-3000, 1000)] 1000 1000 69000 (640000 / 3) = 0) :=
  ⟨by norm_num, deflection_zero_at_supports _ _ _ _ (by norm_num)⟩

end BeamDeflection
